import Mathlib

/-!
Verification of the goanthropic tool-interaction loop.

This file gives a shallow embedding of the core of the repository:

* the shared data types from anthropictypes.go (Message, MessageContent,
  ToolUse, MessageParams, ToolChoice, Request, AnthropicResponse, ...);
* the tool loop ChatWithTools together with extractToolCalls and
  validateToolParams (the loop implementation file of package goanthropic);
* addMessageToConversation and trimConversationHistory from goanthropic.go.

Go slices are lists, Go maps are lookup functions, a json.RawMessage is an
Option String (none models a nil slice), a Go pointer argument is an Option
where nil-ness matters, and a Go (T, error) return is an Except.  The
iteration counter check `iterations >= maxIterations` of the loop is encoded
by a structurally decreasing fuel argument with fuel = maxIterations -
iterations, so that the recursion is structural and executable; the
`iterations` counter itself is kept because it is part of the transport
error message.  The HTTP transport (sendRequest) is an external collaborator
and is a parameter of the embedding; the requests it receives are recorded
in a trace so that "no request was sent" is expressible.
-/

namespace GoAnthropic

/-! ### Constants (anthropictypes.go) -/

def RoleSystem : String := "system"

def RoleUser : String := "user"

def RoleAssistant : String := "assistant"

def ContentTypeText : String := "text"

def ContentTypeToolUse : String := "tool_use"

def ContentTypeToolResult : String := "tool_result"

def ContentTypeThinking : String := "thinking"

def StopReasonToolUse : String := "tool_use"

def StopReasonEndTurn : String := "end_turn"

def StopReasonMaxTokens : String := "max_tokens"

def StopReasonStopSequence : String := "stop_sequence"

def ToolChoiceAuto : String := "auto"

def ToolChoiceNone : String := "none"

def ToolChoiceTool : String := "tool"

/-! ### Data model (anthropictypes.go) -/

/-- MessageContent: the flat tagged content struct.  A json.RawMessage field
is an Option String; none models a nil Go slice.  Go zero values are the
field defaults. -/
structure MessageContent where
  type : String := ""
  text : String := ""
  id : String := ""
  name : String := ""
  input : Option String := none
  toolUseID : String := ""
  content : String := ""
  isError : Bool := false
  deriving DecidableEq

/-- Message: one turn of the conversation. -/
structure Message where
  role : String
  content : List MessageContent
  deriving DecidableEq

/-- ToolUse: a validated tool call extracted from a response. -/
structure ToolUse where
  id : String
  name : String
  input : Option String
  deriving DecidableEq

/-- Property of an input schema. -/
structure Property where
  type : String := ""
  description : String := ""
  enum : List String := []
  deriving DecidableEq

/-- InputSchema of a tool; the Go map of properties is an association
list. -/
structure InputSchema where
  type : String := ""
  properties : List (String × Property) := []
  required : List String := []
  deriving DecidableEq

/-- Tool declaration. -/
structure Tool where
  name : String := ""
  description : String := ""
  inputSchema : InputSchema := {}
  deriving DecidableEq

/-- ToolChoice policy. -/
structure ToolChoice where
  type : String
  name : String := ""
  deriving DecidableEq

/-- MessageParams.  The Go Tools slice can be nil, hence Option; the
Metadata field (map[string]interface lbrace rbrace) is not used by any code
embedded here and is omitted. -/
structure MessageParams where
  model : String := ""
  maxTokens : Int := 0
  temperature : Float := 0.0
  topP : Float := 0.0
  topK : Int := 0
  system : String := ""
  tools : Option (List Tool) := none
  toolChoice : Option ToolChoice := none

/-- Request body assembled for the transport. -/
structure Request where
  model : String := ""
  messages : List Message := []
  maxTokens : Int := 0
  temperature : Float := 0.0
  topP : Float := 0.0
  topK : Int := 0
  system : String := ""
  tools : Option (List Tool) := none
  toolChoice : Option ToolChoice := none

/-- Token usage counters. -/
structure Usage where
  inputTokens : Int := 0
  outputTokens : Int := 0
  deriving DecidableEq

/-- AnthropicResponse returned by the service. -/
structure AnthropicResponse where
  id : String := ""
  type : String := ""
  role : String := ""
  content : List MessageContent := []
  model : String := ""
  stopReason : String := ""
  usage : Usage := {}
  deriving DecidableEq

/-- A tool handler: func(ctx, json.RawMessage) (string, error).  The
context is opaque to the loop and is dropped. -/
abbrev Handler := Option String → Except String String

/-- The handlers map passed to ChatWithTools: map[string]func(...). -/
abbrev Handlers := String → Option Handler

/-- The transport: sendRequest as an external collaborator. -/
abbrev Transport := Request → Except String AnthropicResponse

/-! ### Conversation store (goanthropic.go) -/

/-- addMessageToConversation: appends one new turn at the end. -/
def addMessageToConversation (conversation : List Message) (role : String)
    (content : List MessageContent) : List Message :=
  conversation ++ [{ role := role, content := content }]

/-- trimConversationHistory: if maxConvLength is positive and the
conversation is longer, keep only the last maxConvLength turns. -/
def trimConversationHistory (maxConvLength : Int) (conversation : List Message) :
    List Message :=
  if 0 < maxConvLength ∧ maxConvLength < (conversation.length : Int) then
    conversation.drop (conversation.length - maxConvLength.toNat)
  else
    conversation

/-! ### Tool-call extraction (loop implementation file) -/

/-- The body of the for-loop of extractToolCalls: items tagged tool_use are
kept when id and name are non-empty and the input payload is non-nil;
malformed items are skipped with continue. -/
def extractLoop : List MessageContent → List ToolUse
  | [] => []
  | content :: rest =>
    if content.type = ContentTypeToolUse then
      if content.id = "" ∨ content.name = "" ∨ content.input = none then
        extractLoop rest
      else
        ⟨content.id, content.name, content.input⟩ :: extractLoop rest
    else
      extractLoop rest

/-- extractToolCalls: nil response gives no calls, otherwise scan the
content items in order. -/
def extractToolCalls : Option AnthropicResponse → List ToolUse
  | none => []
  | some resp => extractLoop resp.content

/-! ### Parameter validation (loop implementation file) -/

/-- validateToolParams: with tools present, a tool choice must exist, its
type must be auto, none or tool, and type tool requires a name. -/
def validateToolParams (params : MessageParams) : Except String Unit :=
  if params.tools ≠ none ∧ 0 < (params.tools.getD []).length then
    match params.toolChoice with
    | none => .error "tool_choice must be specified when tools are provided"
    | some tc =>
      if tc.type ≠ ToolChoiceAuto ∧ tc.type ≠ ToolChoiceNone ∧
          tc.type ≠ ToolChoiceTool then
        .error ("invalid tool_choice type: " ++ tc.type)
      else if tc.type = ToolChoiceTool ∧ tc.name = "" then
        .error "tool_choice name must be specified when type is tool"
      else
        .ok ()
  else
    .ok ()

/-- validateToolParams receives a Go pointer; a nil pointer is dereferenced
without a check (params.Tools), so the call panics: none models the
panic. -/
def validateToolParamsPtr : Option MessageParams → Option (Except String Unit)
  | none => none
  | some params => some (validateToolParams params)

/-! ### The tool interaction loop (loop implementation file) -/

/-- The reference iteration cap of the loop. -/
def maxIterations : Nat := 10

/-- Errors the loop can return; each constructor carries the data of the
corresponding fmt.Errorf message. -/
inductive ChatError where
  | invalidToolParams (cause : String)
  | iterationLimit (cap : Nat)
  | requestError (iteration : Nat) (cause : String)
  | protocolNoToolCalls
  | noHandler (name : String)
  deriving DecidableEq

/-- Result of one ChatWithTools invocation: the final conversation state,
the trace of requests handed to the transport, and the returned value. -/
structure ChatResult where
  conversation : List Message
  requests : List Request
  result : Except ChatError AnthropicResponse

/-- The request body built at the top of each iteration of the loop. -/
def buildRequest (params : MessageParams) (conversation : List Message) : Request :=
  { model := params.model, system := params.system, messages := conversation,
    maxTokens := params.maxTokens, temperature := params.temperature,
    topP := params.topP, topK := params.topK, tools := params.tools,
    toolChoice := params.toolChoice }

/-- The per-round dispatch loop over the extracted calls, carrying the
resultContents accumulator.  A missing handler returns the error at once
(the partial accumulator is discarded); a handler error is recorded as an
error-flagged tool_result and processing continues. -/
def dispatchToolCalls (handlers : Handlers) :
    List ToolUse → List MessageContent → Except String (List MessageContent)
  | [], resultContents => .ok resultContents
  | call :: rest, resultContents =>
    match handlers call.name with
    | none => .error call.name
    | some handler =>
      match handler call.input with
      | .error e =>
        dispatchToolCalls handlers rest (resultContents ++
          [{ type := ContentTypeToolResult, toolUseID := call.id,
             content := "Error executing tool: " ++ e, isError := true }])
      | .ok result =>
        dispatchToolCalls handlers rest (resultContents ++
          [{ type := ContentTypeToolResult, toolUseID := call.id,
             content := result }])

/-- The main loop of ChatWithTools.  The Go loop checks
`iterations >= maxIterations` at the top; here fuel = maxIterations -
iterations, so fuel 0 is exactly that check firing. -/
def chatLoop (transport : Transport) (params : MessageParams)
    (handlers : Handlers) (conversation : List Message)
    (requests : List Request) (iterations : Nat) : Nat → ChatResult
  | 0 => ⟨conversation, requests, .error (.iterationLimit maxIterations)⟩
  | fuel + 1 =>
    let reqBody := buildRequest params conversation
    match transport reqBody with
    | .error e =>
      ⟨conversation, requests ++ [reqBody], .error (.requestError iterations e)⟩
    | .ok resp =>
      let conversation := addMessageToConversation conversation RoleAssistant resp.content
      if resp.stopReason ≠ StopReasonToolUse then
        ⟨conversation, requests ++ [reqBody], .ok resp⟩
      else
        let toolCalls := extractToolCalls (some resp)
        if toolCalls.length = 0 then
          ⟨conversation, requests ++ [reqBody], .error .protocolNoToolCalls⟩
        else
          match dispatchToolCalls handlers toolCalls [] with
          | .error missing =>
            ⟨conversation, requests ++ [reqBody], .error (.noHandler missing)⟩
          | .ok resultContents =>
            chatLoop transport params handlers
              (addMessageToConversation conversation RoleUser resultContents)
              (requests ++ [reqBody]) (iterations + 1) fuel

/-- ChatWithTools: validate the tool parameters, append the user message as
a new turn, then run the loop with the iteration cap. -/
def chatWithTools (transport : Transport) (message : String)
    (params : MessageParams) (handlers : Handlers)
    (conversation : List Message) : ChatResult :=
  match validateToolParams params with
  | .error e => ⟨conversation, [], .error (.invalidToolParams e)⟩
  | .ok _ =>
    chatLoop transport params handlers
      (addMessageToConversation conversation RoleUser
        [{ type := ContentTypeText, text := message }])
      [] 0 maxIterations

/-- ChatWithTools receives params as a Go pointer and passes it to
validateToolParams with no nil check, so a nil pointer panics before
anything else happens: none models the panic. -/
def chatWithToolsPtr (transport : Transport) (message : String)
    (params : Option MessageParams) (handlers : Handlers)
    (conversation : List Message) : Option ChatResult :=
  match params with
  | none => none
  | some p => some (chatWithTools transport message p handlers conversation)

deriving instance DecidableEq for Except

/-! ### Concrete fixtures used by witnesses and counterexamples -/

def msgA : Message :=
  { role := RoleUser, content := [{ type := ContentTypeText, text := "a" }] }

def msgB : Message :=
  { role := RoleAssistant, content := [{ type := ContentTypeText, text := "b" }] }

def msgC : Message :=
  { role := RoleUser, content := [{ type := ContentTypeText, text := "c" }] }

/-- Params without tools: validation passes. -/
def paramsPlain : MessageParams := {}

/-- Params with a tool and a named tool choice missing its name. -/
def paramsBadName : MessageParams :=
  { tools := some [{ name := "get_weather" }],
    toolChoice := some { type := ToolChoiceTool, name := "" } }

/-- A response requesting one valid tool call. -/
def respToolUse : AnthropicResponse :=
  { content := [{ type := ContentTypeToolUse, id := "toolu_1", name := "echo",
                  input := some "42" }],
    stopReason := StopReasonToolUse }

/-- A response that ends the turn. -/
def respEnd : AnthropicResponse :=
  { content := [{ type := ContentTypeText, text := "hello" }],
    stopReason := StopReasonEndTurn }

/-- A response with one handled call followed by a call with no handler. -/
def respGhost : AnthropicResponse :=
  { content := [{ type := ContentTypeToolUse, id := "toolu_1", name := "echo",
                  input := some "1" },
                { type := ContentTypeToolUse, id := "toolu_2", name := "ghost",
                  input := some "2" }],
    stopReason := StopReasonToolUse }

/-- A response whose handler for the first call fails. -/
def respMixed : AnthropicResponse :=
  { content := [{ type := ContentTypeToolUse, id := "toolu_1", name := "boom",
                  input := some "x" },
                { type := ContentTypeToolUse, id := "toolu_2", name := "echo",
                  input := some "y" }],
    stopReason := StopReasonToolUse }

/-- A response claiming tool use whose only tool_use item is malformed
(empty id). -/
def respNoCalls : AnthropicResponse :=
  { content := [{ type := ContentTypeToolUse, id := "", name := "echo",
                  input := some "1" }],
    stopReason := StopReasonToolUse }

def stubToolUse : Transport := fun _ => .ok respToolUse

def stubEnd : Transport := fun _ => .ok respEnd

def stubGhost : Transport := fun _ => .ok respGhost

def stubMixed : Transport := fun _ => .ok respMixed

def stubNoCalls : Transport := fun _ => .ok respNoCalls

def echoHandlers : Handlers := fun n =>
  if n = "echo" then some (fun _ => .ok "done") else none

def failingHandlers : Handlers := fun n =>
  if n = "echo" then some (fun _ => .ok "done")
  else if n = "boom" then some (fun _ => .error "kaput")
  else none

def noHandlers : Handlers := fun _ => none

/-! ### Helper definitions for stating and proving the claims -/

/-- The single result content item the dispatch loop synthesizes for one
call, assuming its handler exists (the none branch is never reached under
that assumption). -/
def callResult (handlers : Handlers) (call : ToolUse) : MessageContent :=
  match handlers call.name with
  | none => { type := ContentTypeToolResult }
  | some handler =>
    match handler call.input with
    | .error e =>
      { type := ContentTypeToolResult, toolUseID := call.id,
        content := "Error executing tool: " ++ e, isError := true }
    | .ok result =>
      { type := ContentTypeToolResult, toolUseID := call.id, content := result }

/-- The name of the first call of the round that has no registered
handler, if any: the dispatch loop aborts at exactly this call. -/
def firstUnhandled (handlers : Handlers) : List ToolUse → Option String
  | [] => none
  | call :: rest =>
    match handlers call.name with
    | none => some call.name
    | some _ => firstUnhandled handlers rest

/-- A Bool version of the validity test of extractToolCalls, for stating
that extraction is a filter. -/
def validToolUseItem (c : MessageContent) : Bool :=
  c.type == ContentTypeToolUse &&
    !(c.id == "" || c.name == "" || c.input == none)

/-! ### Dispatch lemmas -/

theorem dispatch_ok_map (handlers : Handlers) :
    ∀ (calls : List ToolUse), (∀ c ∈ calls, (handlers c.name).isSome) →
      ∀ acc, dispatchToolCalls handlers calls acc =
        .ok (acc ++ calls.map (callResult handlers))
  | [], _, acc => by simp [dispatchToolCalls]
  | call :: rest, hcov, acc => by
    have hhead : (handlers call.name).isSome := hcov call (by simp)
    obtain ⟨handler, hh⟩ := Option.isSome_iff_exists.mp hhead
    have hrest : ∀ c ∈ rest, (handlers c.name).isSome := fun c hc =>
      hcov c (by simp [hc])
    have ih := dispatch_ok_map handlers rest hrest
    cases hres : handler call.input with
    | error e =>
      simp only [dispatchToolCalls, hh, hres, ih, callResult, List.map_cons,
        List.append_assoc, List.singleton_append]
    | ok result =>
      simp only [dispatchToolCalls, hh, hres, ih, callResult, List.map_cons,
        List.append_assoc, List.singleton_append]

theorem dispatch_error_of_firstUnhandled (handlers : Handlers) :
    ∀ (calls : List ToolUse) (missing : String),
      firstUnhandled handlers calls = some missing →
      handlers missing = none ∧ (∃ c ∈ calls, c.name = missing) ∧
        ∀ acc, dispatchToolCalls handlers calls acc = .error missing
  | [], missing, h => by simp [firstUnhandled] at h
  | call :: rest, missing, h => by
    cases hh : handlers call.name with
    | none =>
      have hname : call.name = missing := by
        simpa [firstUnhandled, hh] using h
      subst hname
      exact ⟨hh, ⟨call, by simp⟩, fun acc => by simp [dispatchToolCalls, hh]⟩
    | some handler =>
      have htail : firstUnhandled handlers rest = some missing := by
        simpa [firstUnhandled, hh] using h
      obtain ⟨h1, ⟨c, hc, hcn⟩, h3⟩ :=
        dispatch_error_of_firstUnhandled handlers rest missing htail
      refine ⟨h1, ⟨c, by simp [hc], hcn⟩, fun acc => ?_⟩
      cases hres : handler call.input with
      | error e => simp [dispatchToolCalls, hh, hres, h3]
      | ok result => simp [dispatchToolCalls, hh, hres, h3]

theorem firstUnhandled_eq_none (handlers : Handlers) :
    ∀ (calls : List ToolUse), firstUnhandled handlers calls = none →
      ∀ c ∈ calls, (handlers c.name).isSome
  | [], _, c, hc => by simp at hc
  | call :: rest, h, c, hc => by
    cases hh : handlers call.name with
    | none => simp [firstUnhandled, hh] at h
    | some handler =>
      have htail : firstUnhandled handlers rest = none := by
        simpa [firstUnhandled, hh] using h
      rcases List.mem_cons.mp hc with hc | hc
      · subst hc; simp [hh]
      · exact firstUnhandled_eq_none handlers rest htail c hc

/-! ### Loop lemmas -/

theorem chatLoop_step (transport : Transport) (params : MessageParams)
    (handlers : Handlers) (conversation : List Message) (requests : List Request)
    (iterations fuel : Nat) (resp : AnthropicResponse)
    (htr : transport (buildRequest params conversation) = .ok resp)
    (hstop : resp.stopReason = StopReasonToolUse)
    (hne : extractToolCalls (some resp) ≠ [])
    (hcov : ∀ c ∈ extractToolCalls (some resp), (handlers c.name).isSome) :
    chatLoop transport params handlers conversation requests iterations (fuel + 1)
      = chatLoop transport params handlers
          (addMessageToConversation
            (addMessageToConversation conversation RoleAssistant resp.content)
            RoleUser ((extractToolCalls (some resp)).map (callResult handlers)))
          (requests ++ [buildRequest params conversation]) (iterations + 1) fuel := by
  have hlen : ¬ (extractToolCalls (some resp)).length = 0 := by
    simpa [List.length_eq_zero] using hne
  have hdisp := dispatch_ok_map handlers (extractToolCalls (some resp)) hcov []
  simp only [chatLoop, htr, hstop, hlen, hdisp, List.nil_append,
    ne_eq, not_true_eq_false, if_false, ite_false, reduceIte]

theorem chatLoop_stub_iterlimit (transport : Transport) (params : MessageParams)
    (handlers : Handlers)
    (hstub : ∀ req, ∃ resp, transport req = .ok resp ∧
        resp.stopReason = StopReasonToolUse ∧
        extractToolCalls (some resp) ≠ [] ∧
        ∀ c ∈ extractToolCalls (some resp), (handlers c.name).isSome) :
    ∀ (fuel : Nat) (conversation : List Message) (requests : List Request)
      (iterations : Nat),
      (chatLoop transport params handlers conversation requests iterations fuel).result
          = .error (.iterationLimit maxIterations) ∧
      (chatLoop transport params handlers conversation requests iterations
          fuel).requests.length = requests.length + fuel
  | 0, conversation, requests, iterations => by simp [chatLoop]
  | fuel + 1, conversation, requests, iterations => by
    obtain ⟨resp, htr, hstop, hne, hcov⟩ := hstub (buildRequest params conversation)
    rw [chatLoop_step transport params handlers conversation requests iterations fuel
      resp htr hstop hne hcov]
    obtain ⟨ih1, ih2⟩ := chatLoop_stub_iterlimit transport params handlers hstub fuel
      (addMessageToConversation
        (addMessageToConversation conversation RoleAssistant resp.content)
        RoleUser ((extractToolCalls (some resp)).map (callResult handlers)))
      (requests ++ [buildRequest params conversation]) (iterations + 1)
    refine ⟨ih1, ?_⟩
    rw [ih2]
    simp
    omega

theorem chatLoop_result_shape (transport : Transport) (params : MessageParams)
    (handlers : Handlers) :
    ∀ (fuel : Nat) (conversation : List Message) (requests : List Request)
      (iterations : Nat),
      (∀ resp, (chatLoop transport params handlers conversation requests iterations
            fuel).result = .ok resp → resp.stopReason ≠ StopReasonToolUse) ∧
      (∀ cap, (chatLoop transport params handlers conversation requests iterations
            fuel).result = .error (.iterationLimit cap) → cap = maxIterations)
  | 0, conversation, requests, iterations => by
    constructor
    · intro resp h
      simp [chatLoop] at h
    · intro cap h
      simp [chatLoop] at h
      omega
  | fuel + 1, conversation, requests, iterations => by
    cases htr : transport (buildRequest params conversation) with
    | error e =>
      constructor
      · intro resp h
        simp [chatLoop, htr] at h
      · intro cap h
        simp [chatLoop, htr] at h
    | ok resp =>
      by_cases hstop : resp.stopReason = StopReasonToolUse
      · by_cases hlen : (extractToolCalls (some resp)).length = 0
        · constructor
          · intro r h
            simp [chatLoop, htr, hstop, hlen] at h
          · intro cap h
            simp [chatLoop, htr, hstop, hlen] at h
        · cases hdisp : dispatchToolCalls handlers (extractToolCalls (some resp)) [] with
          | error missing =>
            constructor
            · intro r h
              simp [chatLoop, htr, hstop, hlen, hdisp] at h
            · intro cap h
              simp [chatLoop, htr, hstop, hlen, hdisp] at h
          | ok resultContents =>
            have ih := chatLoop_result_shape transport params handlers fuel
              (addMessageToConversation
                (addMessageToConversation conversation RoleAssistant resp.content)
                RoleUser resultContents)
              (requests ++ [buildRequest params conversation]) (iterations + 1)
            constructor
            · intro r h
              refine ih.1 r ?_
              rw [← h]
              simp only [chatLoop, htr, hstop, hlen, hdisp, ne_eq,
                not_true_eq_false, if_false, ite_false, reduceIte]
            · intro cap h
              refine ih.2 cap ?_
              rw [← h]
              simp only [chatLoop, htr, hstop, hlen, hdisp, ne_eq,
                not_true_eq_false, if_false, ite_false, reduceIte]
      · constructor
        · intro r h
          have : r = resp := by
            simpa [chatLoop, htr, hstop] using h.symm
          rw [this]
          exact hstop
        · intro cap h
          simp [chatLoop, htr, hstop] at h

theorem chatLoop_conv_prefix (transport : Transport) (params : MessageParams)
    (handlers : Handlers) :
    ∀ (fuel : Nat) (conversation : List Message) (requests : List Request)
      (iterations : Nat),
      conversation <+: (chatLoop transport params handlers conversation requests
        iterations fuel).conversation
  | 0, conversation, requests, iterations => by simp [chatLoop]
  | fuel + 1, conversation, requests, iterations => by
    cases htr : transport (buildRequest params conversation) with
    | error e => simp [chatLoop, htr]
    | ok resp =>
      by_cases hstop : resp.stopReason = StopReasonToolUse
      · by_cases hlen : (extractToolCalls (some resp)).length = 0
        · simp [chatLoop, htr, hstop, hlen, addMessageToConversation,
            List.prefix_append]
        · cases hdisp : dispatchToolCalls handlers (extractToolCalls (some resp)) [] with
          | error missing =>
            simp [chatLoop, htr, hstop, hlen, hdisp, addMessageToConversation,
              List.prefix_append]
          | ok resultContents =>
            have ih := chatLoop_conv_prefix transport params handlers fuel
              (addMessageToConversation
                (addMessageToConversation conversation RoleAssistant resp.content)
                RoleUser resultContents)
              (requests ++ [buildRequest params conversation]) (iterations + 1)
            have hpre : conversation <+:
                addMessageToConversation
                  (addMessageToConversation conversation RoleAssistant resp.content)
                  RoleUser resultContents := by
              simp [addMessageToConversation, List.append_assoc]
            have heq : chatLoop transport params handlers conversation requests
                iterations (fuel + 1)
                = chatLoop transport params handlers
                    (addMessageToConversation
                      (addMessageToConversation conversation RoleAssistant resp.content)
                      RoleUser resultContents)
                    (requests ++ [buildRequest params conversation]) (iterations + 1)
                    fuel := by
              simp only [chatLoop, htr, hstop, hlen, hdisp, ne_eq,
                not_true_eq_false, if_false, ite_false, reduceIte]
            rw [heq]
            exact hpre.trans ih
      · simp [chatLoop, htr, hstop, addMessageToConversation, List.prefix_append]

/-! ### Claim theorems -/

/-- C9: for every history and bound, when the bound is positive and the
history longer, trimConversationHistory keeps exactly the last maxTurns
turns (the result is a suffix of length maxTurns, so relative order is
unchanged and no turn is split); when the bound is non-positive or the
history is not longer, the history is unchanged. -/
theorem trimConversationHistory_spec (maxTurns : Int) (conversation : List Message) :
    (0 < maxTurns → maxTurns < (conversation.length : Int) →
      trimConversationHistory maxTurns conversation
          = conversation.drop (conversation.length - maxTurns.toNat) ∧
      ((trimConversationHistory maxTurns conversation).length : Int) = maxTurns ∧
      trimConversationHistory maxTurns conversation <:+ conversation) ∧
    ((maxTurns ≤ 0 ∨ (conversation.length : Int) ≤ maxTurns) →
      trimConversationHistory maxTurns conversation = conversation) := by
  constructor
  · intro h1 h2
    have hcond : 0 < maxTurns ∧ maxTurns < (conversation.length : Int) := ⟨h1, h2⟩
    refine ⟨by simp only [trimConversationHistory, if_pos hcond], ?_, ?_⟩
    · simp only [trimConversationHistory, if_pos hcond, List.length_drop]
      omega
    · simp only [trimConversationHistory, if_pos hcond]
      exact List.drop_suffix _ _
  · intro h
    have hcond : ¬ (0 < maxTurns ∧ maxTurns < (conversation.length : Int)) := by
      rintro ⟨hm, hl⟩
      rcases h with h | h <;> omega
    simp only [trimConversationHistory, if_neg hcond]

theorem trimConversationHistory_spec_witness :
    trimConversationHistory 2 [msgA, msgB, msgC] = [msgB, msgC] ∧
    trimConversationHistory 0 [msgA, msgB, msgC] = [msgA, msgB, msgC] ∧
    trimConversationHistory 5 [msgA, msgB, msgC] = [msgA, msgB, msgC] :=
  ⟨((trimConversationHistory_spec 2 [msgA, msgB, msgC]).1 (by decide) (by decide)).1,
   (trimConversationHistory_spec 0 [msgA, msgB, msgC]).2 (Or.inl (by decide)),
   (trimConversationHistory_spec 5 [msgA, msgB, msgC]).2 (Or.inr (by decide))⟩

/-- The recursion of extractToolCalls is the order-preserving filter of the
well-formed tool_use items. -/
theorem extractLoop_eq_filter_map :
    ∀ l : List MessageContent,
      extractLoop l = (l.filter validToolUseItem).map
        (fun c => (⟨c.id, c.name, c.input⟩ : ToolUse))
  | [] => rfl
  | c :: rest => by
    by_cases ht : c.type = ContentTypeToolUse
    · by_cases hbad : c.id = "" ∨ c.name = "" ∨ c.input = none
      · have hv : validToolUseItem c = false := by
          rcases hbad with h | h | h <;> simp [validToolUseItem, ht, h]
        simp [extractLoop, ht, hbad, List.filter_cons, hv,
          extractLoop_eq_filter_map rest]
      · have hv : validToolUseItem c = true := by
          push_neg at hbad
          simp [validToolUseItem, ht, hbad.1, hbad.2.1, hbad.2.2]
        simp [extractLoop, ht, hbad, List.filter_cons, hv,
          extractLoop_eq_filter_map rest]
    · have hv : validToolUseItem c = false := by
        simp [validToolUseItem, ht]
      simp [extractLoop, ht, List.filter_cons, hv, extractLoop_eq_filter_map rest]

/-- C6: extractToolCalls returns exactly the content items tagged tool_use
whose id and name are non-empty and whose input is non-nil, in emission
order; malformed tool_use items are skipped silently, and a nil response
yields no calls rather than an error. -/
theorem extractToolCalls_spec (resp : AnthropicResponse) :
    extractToolCalls (some resp)
        = (resp.content.filter validToolUseItem).map
            (fun c => (⟨c.id, c.name, c.input⟩ : ToolUse)) ∧
    extractToolCalls none = [] :=
  ⟨extractLoop_eq_filter_map resp.content, rfl⟩

theorem extractToolCalls_spec_witness :
    extractToolCalls (some respNoCalls)
        = (respNoCalls.content.filter validToolUseItem).map
            (fun c => (⟨c.id, c.name, c.input⟩ : ToolUse)) ∧
    extractToolCalls none = [] :=
  extractToolCalls_spec respNoCalls

/-- C8: validateToolParams fails exactly when tool declarations are present
and the tool choice is missing, has a type outside auto/none/tool, or is
the named-tool choice with an empty name; and a validation failure in
chatWithTools is raised before any transport request: the request trace is
empty. -/
theorem validateToolParams_spec :
    (∀ params : MessageParams,
      (∃ e, validateToolParams params = .error e) ↔
        ((params.tools ≠ none ∧ 0 < (params.tools.getD []).length) ∧
          (params.toolChoice = none ∨
            ∃ tc, params.toolChoice = some tc ∧
              ((tc.type ≠ ToolChoiceAuto ∧ tc.type ≠ ToolChoiceNone ∧
                  tc.type ≠ ToolChoiceTool) ∨
                (tc.type = ToolChoiceTool ∧ tc.name = ""))))) ∧
    (∀ (transport : Transport) (message : String) (params : MessageParams)
        (handlers : Handlers) (conversation : List Message) (e : String),
      validateToolParams params = .error e →
        (chatWithTools transport message params handlers conversation).requests
            = [] ∧
        (chatWithTools transport message params handlers conversation).result
            = .error (.invalidToolParams e)) := by
  constructor
  · intro params
    by_cases hp : params.tools ≠ none ∧ 0 < (params.tools.getD []).length
    · cases hc : params.toolChoice with
      | none => simp [validateToolParams, hp, hc]
      | some tc =>
        by_cases hty : tc.type ≠ ToolChoiceAuto ∧ tc.type ≠ ToolChoiceNone ∧
            tc.type ≠ ToolChoiceTool
        · simp [validateToolParams, hp, hc, hty]
        · by_cases htn : tc.type = ToolChoiceTool ∧ tc.name = ""
          · simp [validateToolParams, hp, hc, hty, htn]
          · simp [validateToolParams, hp, hc, hty, htn]
    · simp [validateToolParams, hp]
  · intro transport message params handlers conversation e h
    constructor <;> simp [chatWithTools, h]

theorem validateToolParams_spec_witness :
    (chatWithTools stubEnd "hi" paramsBadName echoHandlers []).requests = [] ∧
    (chatWithTools stubEnd "hi" paramsBadName echoHandlers []).result
        = .error (.invalidToolParams
            "tool_choice name must be specified when type is tool") :=
  validateToolParams_spec.2 stubEnd "hi" paramsBadName echoHandlers []
    "tool_choice name must be specified when type is tool" (by decide)

/-- C10: the params pointer of ChatWithTools has the implicit precondition
of being non-nil: validateToolParams dereferences it with no nil check, so
a nil params crashes (modelled by none) instead of returning a
configuration error, while every non-nil params is processed safely. -/
theorem params_pointer_precondition :
    validateToolParamsPtr none = none ∧
    (∀ (transport : Transport) (message : String) (handlers : Handlers)
        (conversation : List Message),
      chatWithToolsPtr transport message none handlers conversation = none) ∧
    (∀ params : MessageParams, (validateToolParamsPtr (some params)).isSome) ∧
    (∀ (transport : Transport) (message : String) (params : MessageParams)
        (handlers : Handlers) (conversation : List Message),
      (chatWithToolsPtr transport message (some params) handlers
          conversation).isSome) :=
  ⟨rfl, fun _ _ _ _ => rfl, fun _ => rfl, fun _ _ _ _ _ => rfl⟩

/-- C7: a response whose stop reason is tool_use but from which extraction
yields zero valid calls makes the loop fail immediately with the protocol
error; only the one request that produced the response was sent, and no
result turn is appended after the assistant turn. -/
theorem protocol_error_on_no_valid_calls (transport : Transport)
    (params : MessageParams) (handlers : Handlers) (conversation : List Message)
    (requests : List Request) (iterations fuel : Nat) (resp : AnthropicResponse)
    (htr : transport (buildRequest params conversation) = .ok resp)
    (hstop : resp.stopReason = StopReasonToolUse)
    (hnone : extractToolCalls (some resp) = []) :
    chatLoop transport params handlers conversation requests iterations (fuel + 1)
      = ⟨addMessageToConversation conversation RoleAssistant resp.content,
         requests ++ [buildRequest params conversation],
         .error .protocolNoToolCalls⟩ := by
  simp [chatLoop, htr, hstop, hnone]

theorem protocol_error_on_no_valid_calls_witness :
    chatLoop stubNoCalls paramsPlain echoHandlers [] [] 0 10
      = ⟨addMessageToConversation [] RoleAssistant respNoCalls.content,
         [] ++ [buildRequest paramsPlain []], .error .protocolNoToolCalls⟩ :=
  protocol_error_on_no_valid_calls stubNoCalls paramsPlain echoHandlers [] [] 0 9
    respNoCalls rfl (by decide) (by decide)

/-- C3: if any call of the validated round has no registered handler, the
whole loop invocation fails with the no-handler error naming a missing
tool (the first one encountered), no result turn for the round is
appended, and the loop does not continue — even when other calls of the
round would have succeeded. -/
theorem missing_handler_aborts_loop (transport : Transport)
    (params : MessageParams) (handlers : Handlers) (conversation : List Message)
    (requests : List Request) (iterations fuel : Nat) (resp : AnthropicResponse)
    (missing : String)
    (htr : transport (buildRequest params conversation) = .ok resp)
    (hstop : resp.stopReason = StopReasonToolUse)
    (hne : extractToolCalls (some resp) ≠ [])
    (hmiss : firstUnhandled handlers (extractToolCalls (some resp)) = some missing) :
    handlers missing = none ∧
    (∃ c ∈ extractToolCalls (some resp), c.name = missing) ∧
    chatLoop transport params handlers conversation requests iterations (fuel + 1)
      = ⟨addMessageToConversation conversation RoleAssistant resp.content,
         requests ++ [buildRequest params conversation],
         .error (.noHandler missing)⟩ := by
  obtain ⟨h1, h2, h3⟩ := dispatch_error_of_firstUnhandled handlers _ missing hmiss
  refine ⟨h1, h2, ?_⟩
  have hlen : ¬ (extractToolCalls (some resp)).length = 0 := by
    simpa [List.length_eq_zero] using hne
  simp [chatLoop, htr, hstop, hlen, h3 []]

theorem missing_handler_aborts_loop_witness :
    echoHandlers "ghost" = none ∧
    (∃ c ∈ extractToolCalls (some respGhost), c.name = "ghost") ∧
    chatLoop stubGhost paramsPlain echoHandlers [] [] 0 10
      = ⟨addMessageToConversation [] RoleAssistant respGhost.content,
         [] ++ [buildRequest paramsPlain []], .error (.noHandler "ghost")⟩ :=
  missing_handler_aborts_loop stubGhost paramsPlain echoHandlers [] [] 0 9
    respGhost "ghost" rfl (by decide) (by decide) (by decide)

/-- C4: when every call of a round has a handler, a handler that fails
yields an error-flagged tool_result carrying its call id and a payload
describing the failure, every invocation of the round is still processed
(the dispatch returns one result per call), and the dispatch — hence the
loop invocation — does not abort because of the handler failure. -/
theorem handler_error_recovered (handlers : Handlers) (calls : List ToolUse)
    (hcov : ∀ c ∈ calls, (handlers c.name).isSome) :
    dispatchToolCalls handlers calls [] = .ok (calls.map (callResult handlers)) ∧
    ∀ c ∈ calls, ∀ handler, handlers c.name = some handler →
      ∀ e, handler c.input = .error e →
        callResult handlers c
          = { type := ContentTypeToolResult, toolUseID := c.id,
              content := "Error executing tool: " ++ e, isError := true } := by
  refine ⟨by simpa using dispatch_ok_map handlers calls hcov [], ?_⟩
  intro c hc handler hh e he
  simp [callResult, hh, he]

theorem handler_error_recovered_witness :
    dispatchToolCalls failingHandlers (extractToolCalls (some respMixed)) []
        = .ok ((extractToolCalls (some respMixed)).map (callResult failingHandlers)) ∧
    callResult failingHandlers ⟨"toolu_1", "boom", some "x"⟩
        = { type := ContentTypeToolResult, toolUseID := "toolu_1",
            content := "Error executing tool: kaput", isError := true } :=
  ⟨(handler_error_recovered failingHandlers (extractToolCalls (some respMixed))
      (by decide)).1,
   (handler_error_recovered failingHandlers (extractToolCalls (some respMixed))
      (by decide)).2 ⟨"toolu_1", "boom", some "x"⟩ (by decide)
      (fun _ => .error "kaput") rfl "kaput" rfl⟩

/-- C5: a tool_use round of N valid calls whose handlers all resolve
produces exactly N tool_result items, the i-th referencing the id of the
i-th invocation in the same order, and the loop appends them all as one
single new user-role turn only after the whole round is processed, then
continues with the next iteration — no partial result turn is ever
appended. -/
theorem round_results_single_turn (transport : Transport)
    (params : MessageParams) (handlers : Handlers) (conversation : List Message)
    (requests : List Request) (iterations fuel : Nat) (resp : AnthropicResponse)
    (htr : transport (buildRequest params conversation) = .ok resp)
    (hstop : resp.stopReason = StopReasonToolUse)
    (hne : extractToolCalls (some resp) ≠ [])
    (hcov : ∀ c ∈ extractToolCalls (some resp), (handlers c.name).isSome) :
    dispatchToolCalls handlers (extractToolCalls (some resp)) []
        = .ok ((extractToolCalls (some resp)).map (callResult handlers)) ∧
    ((extractToolCalls (some resp)).map (callResult handlers)).length
        = (extractToolCalls (some resp)).length ∧
    ((extractToolCalls (some resp)).map (callResult handlers)).map
          (fun r => r.toolUseID)
        = (extractToolCalls (some resp)).map (fun c => c.id) ∧
    chatLoop transport params handlers conversation requests iterations (fuel + 1)
      = chatLoop transport params handlers
          (addMessageToConversation
            (addMessageToConversation conversation RoleAssistant resp.content)
            RoleUser ((extractToolCalls (some resp)).map (callResult handlers)))
          (requests ++ [buildRequest params conversation]) (iterations + 1)
          fuel := by
  refine ⟨by simpa using dispatch_ok_map handlers _ hcov [], by simp, ?_, ?_⟩
  · rw [List.map_map]
    refine List.map_congr_left ?_
    intro c hc
    obtain ⟨handler, hh⟩ := Option.isSome_iff_exists.mp (hcov c hc)
    cases hr : handler c.input <;> simp [callResult, hh, hr]
  · exact chatLoop_step transport params handlers conversation requests
      iterations fuel resp htr hstop hne hcov

theorem round_results_single_turn_witness :
    dispatchToolCalls failingHandlers (extractToolCalls (some respMixed)) []
        = .ok ((extractToolCalls (some respMixed)).map (callResult failingHandlers)) ∧
    ((extractToolCalls (some respMixed)).map (callResult failingHandlers)).length
        = (extractToolCalls (some respMixed)).length ∧
    ((extractToolCalls (some respMixed)).map (callResult failingHandlers)).map
          (fun r => r.toolUseID)
        = (extractToolCalls (some respMixed)).map (fun c => c.id) ∧
    chatLoop stubMixed paramsPlain failingHandlers [] [] 0 10
      = chatLoop stubMixed paramsPlain failingHandlers
          (addMessageToConversation
            (addMessageToConversation [] RoleAssistant respMixed.content)
            RoleUser ((extractToolCalls (some respMixed)).map
              (callResult failingHandlers)))
          ([] ++ [buildRequest paramsPlain []]) (0 + 1) 9 :=
  round_results_single_turn stubMixed paramsPlain failingHandlers [] [] 0 9
    respMixed rfl (by decide) (by decide) (by decide)

/-- C1 counterexample: a transport stub that always answers with stop
reason tool_use and two valid tool calls, paired with a registry that has
no handler for them, makes the loop fail with the no-handler error after a
single request/dispatch round — not with the iteration-limit error after
maxIterations rounds, refuting the claim's quantification over every tool
registry. -/
theorem iteration_limit_claim_counterexample :
    respGhost.stopReason = StopReasonToolUse ∧
    extractToolCalls (some respGhost) ≠ [] ∧
    (chatWithTools stubGhost "go" paramsPlain noHandlers []).result
        = .error (.noHandler "echo") ∧
    (chatWithTools stubGhost "go" paramsPlain noHandlers []).requests.length = 1 ∧
    (chatWithTools stubGhost "go" paramsPlain noHandlers []).result
        ≠ .error (.iterationLimit maxIterations) := by
  refine ⟨rfl, by decide, by decide, by decide, by decide⟩

/-- C1 (amended): maxIterations is 10; for every transport stub whose
responses always carry stop reason tool_use with at least one valid call
and whose calls are all covered by the registry, the loop terminates with
the iteration-limit error after exactly maxIterations request/dispatch
rounds; and in general every execution terminates with either a success
whose stop reason is not tool_use, the iteration-limit error, or one of
the fatal errors — there is no unbounded branch. -/
theorem chatWithTools_termination :
    maxIterations = 10 ∧
    (∀ (transport : Transport) (message : String) (params : MessageParams)
        (handlers : Handlers) (conversation : List Message),
      (∀ req, ∃ resp, transport req = .ok resp ∧
          resp.stopReason = StopReasonToolUse ∧
          extractToolCalls (some resp) ≠ [] ∧
          ∀ c ∈ extractToolCalls (some resp), (handlers c.name).isSome) →
      validateToolParams params = .ok () →
      (chatWithTools transport message params handlers conversation).result
          = .error (.iterationLimit maxIterations) ∧
      (chatWithTools transport message params handlers
          conversation).requests.length = maxIterations) ∧
    (∀ (transport : Transport) (message : String) (params : MessageParams)
        (handlers : Handlers) (conversation : List Message),
      (∃ resp,
          (chatWithTools transport message params handlers conversation).result
            = .ok resp ∧ resp.stopReason ≠ StopReasonToolUse) ∨
      (chatWithTools transport message params handlers conversation).result
          = .error (.iterationLimit maxIterations) ∨
      (∃ e,
          (chatWithTools transport message params handlers conversation).result
            = .error e ∧ ∀ cap, e ≠ .iterationLimit cap)) := by
  refine ⟨rfl, ?_, ?_⟩
  · intro transport message params handlers conversation hstub hv
    obtain ⟨h1, h2⟩ := chatLoop_stub_iterlimit transport params handlers hstub
      maxIterations
      (addMessageToConversation conversation RoleUser
        [{ type := ContentTypeText, text := message }]) [] 0
    constructor <;> simp [chatWithTools, hv, h1, h2]
  · intro transport message params handlers conversation
    cases hv : validateToolParams params with
    | error e =>
      refine Or.inr (Or.inr ⟨.invalidToolParams e, by simp [chatWithTools, hv], ?_⟩)
      intro cap hcontra
      cases hcontra
    | ok u =>
      have hshape := chatLoop_result_shape transport params handlers maxIterations
        (addMessageToConversation conversation RoleUser
          [{ type := ContentTypeText, text := message }]) [] 0
      have hres : (chatWithTools transport message params handlers
          conversation).result
          = (chatLoop transport params handlers
              (addMessageToConversation conversation RoleUser
                [{ type := ContentTypeText, text := message }]) [] 0
              maxIterations).result := by
        simp [chatWithTools, hv]
      cases hr : (chatWithTools transport message params handlers
          conversation).result with
      | ok resp =>
        exact Or.inl ⟨resp, rfl, hshape.1 resp (hres ▸ hr)⟩
      | error e =>
        cases e with
        | iterationLimit cap =>
          have : cap = maxIterations := hshape.2 cap (hres ▸ hr)
          subst this
          exact Or.inr (Or.inl rfl)
        | invalidToolParams c =>
          exact Or.inr (Or.inr ⟨_, rfl, fun cap hcontra => by cases hcontra⟩)
        | requestError i c =>
          exact Or.inr (Or.inr ⟨_, rfl, fun cap hcontra => by cases hcontra⟩)
        | protocolNoToolCalls =>
          exact Or.inr (Or.inr ⟨_, rfl, fun cap hcontra => by cases hcontra⟩)
        | noHandler n =>
          exact Or.inr (Or.inr ⟨_, rfl, fun cap hcontra => by cases hcontra⟩)

theorem chatWithTools_termination_witness :
    (chatWithTools stubToolUse "ping" paramsPlain echoHandlers []).result
        = .error (.iterationLimit maxIterations) ∧
    (chatWithTools stubToolUse "ping" paramsPlain echoHandlers
        []).requests.length = maxIterations :=
  chatWithTools_termination.2.1 stubToolUse "ping" paramsPlain echoHandlers []
    (fun req => ⟨respToolUse, rfl, rfl, by decide, by decide⟩) (by decide)

/-- C2 counterexample: the loop implementation appends without ever
trimming: with history bound maxTurns = 1 and an initially empty history,
an invocation answered by an immediate end_turn leaves 2 turns in the
history, exceeding the bound, and applying trimConversationHistory to the
final history would change it — so trim did not run after the appends. -/
theorem trim_in_loop_counterexample :
    (0 : Int) < 1 ∧
    (chatWithTools stubEnd "hi" paramsPlain echoHandlers []).conversation.length
        = 2 ∧
    ¬ ((chatWithTools stubEnd "hi" paramsPlain echoHandlers
        []).conversation.length ≤ 1) ∧
    trimConversationHistory 1
        (chatWithTools stubEnd "hi" paramsPlain echoHandlers []).conversation
      ≠ (chatWithTools stubEnd "hi" paramsPlain echoHandlers []).conversation := by
  refine ⟨by decide, by decide, by decide, by decide⟩

/-- C2 (amended): during one invocation of the loop implementation of
ChatWithTools the history is only ever appended to — trimConversationHistory
is never applied — so the initial history is always a prefix of the final
history and no maxTurns bound is enforced between loop steps. -/
theorem chatWithTools_never_trims (transport : Transport) (message : String)
    (params : MessageParams) (handlers : Handlers) (conversation : List Message) :
    conversation <+:
      (chatWithTools transport message params handlers conversation).conversation := by
  cases hv : validateToolParams params with
  | error e => simp [chatWithTools, hv]
  | ok u =>
    have hloop := chatLoop_conv_prefix transport params handlers maxIterations
      (addMessageToConversation conversation RoleUser
        [{ type := ContentTypeText, text := message }]) [] 0
    have hpre : conversation <+:
        addMessageToConversation conversation RoleUser
          [{ type := ContentTypeText, text := message }] :=
      List.prefix_append _ _
    have heq : (chatWithTools transport message params handlers
        conversation).conversation
        = (chatLoop transport params handlers
            (addMessageToConversation conversation RoleUser
              [{ type := ContentTypeText, text := message }]) [] 0
            maxIterations).conversation := by
      simp [chatWithTools, hv]
    rw [heq]
    exact hpre.trans hloop

end GoAnthropic
